import Mathlib

/-!
Verification of the natural-language specification of `BioTupload.py`
(Onalabs production tools) against a shallow embedding of the script.

The script is a linear orchestration: parse CLI arguments, authenticate
against the BioT platform, fetch reference data (organization list, two
template ids), create a registration code and then a device, and finally
write a JSON traceability file.  A single global integer
`EXECUTION_STATUS` records the outcome (0 = success, distinct non-zero
codes per failure site, last write wins).

Embedding conventions:
* Python exceptions are modelled by `Except PyExc`; each `try/except`
  block of the script becomes a `catchWith` wrapper that catches exactly
  the exception class named in the source (`except Exception` catches
  everything Exception-derived; `except requests.exceptions.RequestException`
  catches only request-classed errors; `SystemExit`, raised by argparse on
  missing or invalid required flags, derives from `BaseException` only and
  is caught by neither).
* The outside world (HTTP responses for each of the six endpoints, the
  initial file system, the run date) is a `World` record; network calls and
  the `time.sleep(1)` are recorded in an event trace.
* JSON documents are modelled by `JValue` (integers for numbers); a file on
  disk holds a list of JSON values (write mode `'w'` replaces the list by a
  singleton, append mode `'a'` appends), which captures exactly the
  overwrite-versus-append distinction the spec discusses.
* Python `str.isdigit` is modelled on the ASCII decimal alphabet and
  `int()` on digit strings, which is exact for the byte strings the tool
  handles; `os.path` functions follow the POSIX semantics.
-/

/-- The network-visible events of one run, in order. -/
inductive NetEvent where
  | postLogin
  | getOrganizations
  | getTemplateRegistrationCode
  | getTemplateDevice
  | postRegistrationCode
  | postDevice
  | sleep (seconds : Nat)
  deriving DecidableEq, Repr

/-- JSON values (numbers restricted to integers, which covers the ids and
status codes the tool manipulates). -/
inductive JValue where
  | null
  | bool (b : Bool)
  | num (n : Int)
  | str (s : String)
  | arr (elems : List JValue)
  | obj (fields : List (String × JValue))
  deriving Repr

/-- The Python exception classes that can arise in the script.  `isExc`
marks the ones deriving from `Exception`; `systemExit` derives only from
`BaseException` and is therefore not caught by `except Exception`. -/
inductive PyExc where
  | httpError            -- requests HTTPError, from raise_for_status
  | connectionError      -- requests network-level error
  | reqJsonError         -- requests JSONDecodeError from Response.json()
  | jsonDecodeError      -- json.loads failure (a ValueError)
  | valueError           -- int() failure on a non-decimal digit string
  | keyError
  | indexError
  | typeError
  | attributeError
  | nameError
  | fileNotFoundError
  | systemExit (code : Nat)
  deriving DecidableEq, Repr

/-- Exception-derived classes: everything except `SystemExit`. -/
def PyExc.isExc : PyExc → Bool
  | .systemExit _ => false
  | _ => true

/-- Classes caught by `except requests.exceptions.RequestException`. -/
def PyExc.isReqExc : PyExc → Bool
  | .httpError => true
  | .connectionError => true
  | .reqJsonError => true
  | _ => false

/-- An HTTP response: status code plus body.  `body = none` models a body
that is not valid JSON (decoding it fails). -/
structure HttpResponse where
  status : Nat
  body : Option JValue
  deriving Repr

/-- Result of one network call as provided by the environment. -/
inductive NetResult where
  | netError            -- connection-level failure (RequestException)
  | ok (r : HttpResponse)
  deriving Repr

/-- A tiny file system: a set of existing directories and, per path, the
list of JSON values the file holds. -/
structure FS where
  dirs : List String
  files : List (String × List JValue)
  deriving Repr

/-- The dictionary built by `vars(args)`: argument name to value.  Values
are strings except `OutputDirectory`, which may be Python `None`. -/
abbrev Data := List (String × Option String)

/-- Python `dict.get(k)`: `None` both when the key is absent and when the
stored value is `None` (the script never distinguishes the two). -/
def Data.get (d : Data) (k : String) : Option String :=
  match d.lookup k with
  | some v => v
  | none => none

/-- Python `dict.get(k, default)`. -/
def Data.getD (d : Data) (k : String) (dflt : String) : Option String :=
  match d.lookup k with
  | some v => v
  | none => some dflt

/-- Python `str(x)` / f-string rendering of a value that is either a string
or `None`. -/
def fstr : Option String → String
  | some v => v
  | none => "None"

/-- `json.dumps` / `json.dump` rendering of a string-or-None value. -/
def optStr : Option String → JValue
  | some v => .str v
  | none => .null

/-- The mutable interpreter state: the global variables of the script (in
source order of first assignment), the event trace and the file system. -/
structure St where
  executionStatus : Nat                          -- EXECUTION_STATUS
  organizationsDic : List (JValue × JValue)      -- ORGANIZATIONS_DIC
  data : Option Data                             -- global `data` (none = unbound or None)
  headersLogin : Option String                   -- headers_login content-type
  payload : Option (Option String × Option String) -- login payload {username, password}
  apiLogin : Option String
  apiPostRegistrationCode : Option String
  apiGetOrganizations : Option String
  apiGetTemplateRegistrationCode : Option String
  apiGetTemplateOnasportDevice : Option String
  apiPostOnasportDevice : Option String
  headersApis : Option JValue                    -- bearer token extracted at login
  responseJsonListOrganizations : Option JValue
  templateIdRegistrationCode : Option JValue
  onasportDeviceTemplateId : Option JValue
  dataRegistrationCode : Option JValue           -- payload of the registration-code POST
  dataDevice : Option JValue                     -- payload of the device POST
  trace : List NetEvent
  fs : FS

/-- The environment of one run: the response each endpoint would give, the
initial file system and the run date (the `DATE` global, `%y%m%d`). -/
structure World where
  loginResp : NetResult
  orgsResp : NetResult
  templRcResp : NetResult
  templDevResp : NetResult
  postRcResp : NetResult
  postDevResp : NetResult
  fs0 : FS
  date : String

/-- Interpreter state at script start. -/
def initSt (w : World) : St :=
  { executionStatus := 0, organizationsDic := [], data := none
    headersLogin := none, payload := none, apiLogin := none
    apiPostRegistrationCode := none, apiGetOrganizations := none
    apiGetTemplateRegistrationCode := none
    apiGetTemplateOnasportDevice := none, apiPostOnasportDevice := none
    headersApis := none, responseJsonListOrganizations := none
    templateIdRegistrationCode := none, onasportDeviceTemplateId := none
    dataRegistrationCode := none, dataDevice := none
    trace := [], fs := w.fs0 }

def setStatus (n : Nat) (s : St) : St := { s with executionStatus := n }

def pushEvent (e : NetEvent) (s : St) : St := { s with trace := s.trace ++ [e] }

/-- One `try/except <class> : EXECUTION_STATUS = code; return None` block:
catches exactly the classes selected by `canCatch`. -/
def catchWith (canCatch : PyExc → Bool) (code : Nat)
    (x : Except PyExc Unit × St) : Except PyExc Unit × St :=
  match x with
  | (.ok _, s) => (.ok (), s)
  | (.error e, s) => if canCatch e then (.ok (), setStatus code s) else (.error e, s)

/-! ### Pure helpers for Python built-ins -/

/-- `posixpath.dirname`: everything before the last slash, with trailing
slashes stripped unless the result is all slashes; empty when no slash. -/
def dirname (p : String) : String :=
  let cs := p.toList
  if cs.contains '/' then
    let head := ((cs.reverse.dropWhile (fun c => c ≠ '/'))).reverse
    if head.all (fun c => c = '/') then String.mk head
    else String.mk ((head.reverse.dropWhile (fun c => c = '/')).reverse)
  else ""

/-- `str.startswith('/')` of posixpath. -/
def startsWithSlash (s : String) : Bool :=
  match s.toList with
  | [] => false
  | c :: _ => c = '/'

/-- `str.endswith('/')` of posixpath. -/
def endsWithSlash (s : String) : Bool :=
  match s.toList.reverse with
  | [] => false
  | c :: _ => c = '/'

/-- `os.path.join(a, b)` (POSIX): `TypeError` when the first component is
Python `None`, as happens when the `-output` flag was omitted. -/
def osPathJoin : Option String → String → Except PyExc String
  | none, _ => .error .typeError
  | some a, b =>
    .ok (if startsWithSlash b then b
         else if a = "" || endsWithSlash a then a ++ b
         else a ++ "/" ++ b)

/-- Subscripting `v[k]` with a string key: `KeyError` on a dict missing the
key, `TypeError` on anything that is not a dict. -/
def jGet (v : JValue) (k : String) : Except PyExc JValue :=
  match v with
  | .obj fields =>
    match fields.lookup k with
    | some x => .ok x
    | none => .error .keyError
  | _ => .error .typeError

/-- Subscripting `v[i]` with an integer index. -/
def jIndex (v : JValue) (i : Nat) : Except PyExc JValue :=
  match v with
  | .arr xs =>
    match xs[i]? with
    | some x => .ok x
    | none => .error .indexError
  | .str st =>
    match st.toList[i]? with
    | some c => .ok (.str (String.mk [c]))
    | none => .error .indexError
  | .obj _ => .error .keyError
  | _ => .error .typeError

/-- `json.loads(response.content.decode("utf-8"))`: `ValueError` on a body
that is not valid JSON. -/
def jsonLoads : Option JValue → Except PyExc JValue
  | some v => .ok v
  | none => .error .jsonDecodeError

/-- `response.json()` of the `requests` library: its decode failure is a
`requests.exceptions.JSONDecodeError`, a `RequestException` subclass. -/
def responseJson (r : HttpResponse) : Except PyExc JValue :=
  match r.body with
  | some v => .ok v
  | none => .error .reqJsonError

/-- Accessing `.content` on the result of `get_api_call`/`post_api_call`:
those helpers return `None` on failure, and `None.content` is an
`AttributeError`. -/
def pyContent : Option HttpResponse → Except PyExc (Option JValue)
  | some r => .ok r.body
  | none => .error .attributeError

/-- `response.raise_for_status()`: raises `HTTPError` exactly for 4xx and
5xx status codes. -/
def raiseForStatus (r : HttpResponse) : Except PyExc Unit :=
  if 400 ≤ r.status ∧ r.status ≤ 599 then .error .httpError else .ok ()

/-- Equality test used for dictionary keys.  `ORGANIZATIONS_DIC` keys pass
the hashability check below before insertion, so only scalar values ever
have to be compared. -/
def keyEq : JValue → JValue → Bool
  | .null, .null => true
  | .bool a, .bool b => a == b
  | .num a, .num b => a == b
  | .str a, .str b => a == b
  | _, _ => false

/-- Python hashability of a JSON value used as a dict key (lists and dicts
are unhashable). -/
def hashable : JValue → Bool
  | .arr _ => false
  | .obj _ => false
  | _ => true

/-- `dict.get` on `ORGANIZATIONS_DIC`. -/
def dicGet (dic : List (JValue × JValue)) (k : JValue) : Option JValue :=
  match dic with
  | [] => none
  | (k1, v) :: rest => if keyEq k1 k then some v else dicGet rest k

/-- Python dict assignment `dic[k] = v`: update in place, else append. -/
def dicInsert (dic : List (JValue × JValue)) (k v : JValue) :
    List (JValue × JValue) :=
  match dic with
  | [] => [(k, v)]
  | (k1, v1) :: rest =>
    if keyEq k1 k then (k1, v) :: rest else (k1, v1) :: dicInsert rest k v

/-- Association-list update used for files: replace, else append. -/
def setFile (files : List (String × List JValue)) (p : String)
    (v : List JValue) : List (String × List JValue) :=
  match files with
  | [] => [(p, v)]
  | (q, w) :: rest =>
    if q = p then (q, v) :: rest else (q, w) :: setFile rest p v

def getFile (files : List (String × List JValue)) (p : String) :
    Option (List JValue) :=
  match files with
  | [] => none
  | (q, w) :: rest => if q = p then some w else getFile rest p

def FS.fileAt (fs : FS) (p : String) : Option (List JValue) :=
  getFile fs.files p

/-- `open(filepath, 'w')` followed by one `json.dump`: fails with
`FileNotFoundError` when the parent directory does not exist (an empty
dirname means the current directory, which exists); on success the
content becomes the single dumped value. -/
def fsWrite (fs : FS) (p : String) (v : JValue) : Except PyExc FS :=
  if dirname p = "" ∨ fs.dirs.contains (dirname p) then
    .ok { fs with files := setFile fs.files p [v] }
  else .error .fileNotFoundError

/-- `strftime("%y%m%d")` of a calendar date: two zero-padded digits each
for year mod 100, month and day. -/
def pad2 (n : Nat) : String := if n < 10 then "0" ++ toString n else toString n

def strftimeYYMMDD (year month day : Nat) : String :=
  pad2 (year % 100) ++ pad2 month ++ pad2 day

/-! ### Script constants -/

def SERIAL_NUMBER_LENGTH_ONASPORT : Nat := 10
def MIN_SERIAL_NUMBER_ONASPORT : Nat := 1000000000
def MAX_SERIAL_NUMBER_ONASPORT : Nat := 9999999999
def URL_DEV : String := "https://api.dev.onalabs.biot-med.com"
def URL_PROD : String := "https://api.onalabs.biot-med.com"

/-- The first code points of the contiguous decimal-digit runs of Unicode
(category `Nd`): each run holds the digits 0-9 of one script.  ASCII,
Arabic-Indic, Extended Arabic-Indic, NKo, the Indic scripts, Thai, Lao,
Tibetan, Myanmar, Khmer, Mongolian, Limbu, New Tai Lue, Tai Tham, Balinese,
Sundanese, Lepcha, Ol Chiki, Vai, Saurashtra, Kayah Li, Javanese, Cham,
Meetei Mayek, fullwidth, and the supplementary-plane digit runs including
the five mathematical alphanumeric ones. -/
def ndRangeStarts : List Nat :=
  [0x30, 0x660, 0x6F0, 0x7C0, 0x966, 0x9E6, 0xA66, 0xAE6, 0xB66, 0xBE6,
   0xC66, 0xCE6, 0xD66, 0xDE6, 0xE50, 0xED0, 0xF20, 0x1040, 0x1090, 0x17E0,
   0x1810, 0x1946, 0x19D0, 0x1A80, 0x1A90, 0x1B50, 0x1BB0, 0x1C40, 0x1C50,
   0xA620, 0xA8D0, 0xA900, 0xA9D0, 0xA9F0, 0xAA50, 0xABF0, 0xFF10,
   0x104A0, 0x10D30, 0x11066, 0x110F0, 0x11136, 0x111D0, 0x112F0, 0x11450,
   0x114D0, 0x11650, 0x116C0, 0x11730, 0x118E0, 0x11950, 0x11C50, 0x11D50,
   0x11DA0, 0x16A60, 0x16B50, 0x1D7CE, 0x1D7D8, 0x1D7E2, 0x1D7EC, 0x1D7F6,
   0x1E140, 0x1E2F0, 0x1E950, 0x1FBF0]

/-- The decimal value of a character of Unicode category `Nd`, `none` for
every other character.  Python `int()` accepts exactly these digits. -/
def decimalDigitVal (c : Char) : Option Nat :=
  (ndRangeStarts.find? (fun b => b ≤ c.toNat && c.toNat ≤ b + 9)).map
    (fun b => c.toNat - b)

/-- Characters with `Numeric_Type=Digit` that are not decimal digits:
`str.isdigit` accepts them but `int()` rejects them.  Covered here:
superscript one, two, three (U+00B9, U+00B2, U+00B3), the other
superscripts (U+2070, U+2074-U+2079), the subscripts (U+2080-U+2089),
Ethiopic digits, and the circled, parenthesized, full-stop and dingbat
compatibility digits. -/
def isNonDecimalDigit (c : Char) : Bool :=
  let n := c.toNat
  n = 0xB9 || n = 0xB2 || n = 0xB3
  || n = 0x2070 || (0x2074 ≤ n && n ≤ 0x2079)
  || (0x2080 ≤ n && n ≤ 0x2089)
  || (0x1369 ≤ n && n ≤ 0x1371)
  || (0x2460 ≤ n && n ≤ 0x2468) || (0x2474 ≤ n && n ≤ 0x247C)
  || (0x2488 ≤ n && n ≤ 0x2490) || (0x24EA = n)
  || (0x24F5 ≤ n && n ≤ 0x24FD) || (0x2776 ≤ n && n ≤ 0x277E)
  || (0x2780 ≤ n && n ≤ 0x2788) || (0x278A ≤ n && n ≤ 0x2792)

/-- Python `str.isdigit`: non-empty and every character a digit — either a
decimal digit (category `Nd`) or a `Numeric_Type=Digit` compatibility
digit such as a superscript.  Characters outside the runs listed above are
treated as non-digits. -/
def pyIsdigit (s : String) : Bool :=
  !s.isEmpty && s.toList.all
    (fun c => (decimalDigitVal c).isSome || isNonDecimalDigit c)

/-- `int()` on the strings that reach it in this script (behind the
`isdigit` guard): every character must be a decimal digit (`Nd`); any
other character — such as a superscript, which `isdigit` nonetheless
accepts — raises `ValueError`.  Whitespace, sign and underscore forms
never reach this call because `isdigit` rejects them. -/
def pyIntAux : List Char → Nat → Except PyExc Nat
  | [], acc => .ok acc
  | c :: cs, acc =>
    match decimalDigitVal c with
    | some d => pyIntAux cs (10 * acc + d)
    | none => .error .valueError

def pyInt (s : String) : Except PyExc Nat :=
  if s.isEmpty then .error .valueError else pyIntAux s.toList 0

/-- The value of a string of ASCII digits (used only to state the
ASCII-level hypotheses of the run-level theorems). -/
def intOfString (s : String) : Nat :=
  s.toList.foldl (fun a c => 10 * a + (c.toNat - '0'.toNat)) 0

/-! ### File and JSON operations of the script -/

/-- `format_filename(data)`: builds `{SerialNumber}_{DATE}.json`.  The
f-string over a dict lookup with a string default cannot raise, so the
surrounding `try/except` (status 1) is dead and the result is always
`some`. -/
def format_filename (data : Data) (date : String) (s : St) :
    Option String × St :=
  (some (fstr (data.getD "SerialNumber" "No_Serial_Number_Available")
      ++ "_" ++ date ++ ".json"), s)

/-- Body of `log_to_json`: `os.makedirs(dirname, exist_ok=True)` (which
raises on an empty path) then append one JSON object to the file. -/
def log_to_jsonBody (data : Data) (filepath : String) (s : St) :
    Except PyExc Unit × St :=
  let dn := dirname filepath
  if dn = "" then (.error .fileNotFoundError, s)
  else
    let fs1 : FS :=
      { s.fs with dirs := if s.fs.dirs.contains dn then s.fs.dirs
                          else s.fs.dirs ++ [dn] }
    let dumped : JValue := .obj (data.map (fun kv => (kv.1, optStr kv.2)))
    let old := (getFile fs1.files filepath).getD []
    let fs2 : FS := { fs1 with files := setFile fs1.files filepath (old ++ [dumped]) }
    (.ok (), { s with fs := fs2 })

/-- `log_to_json` (status 2 on failure).  This is the append-mode helper;
the main flow never calls it. -/
def log_to_json (data : Data) (filepath : String) (s : St) :
    Except PyExc Unit × St :=
  catchWith PyExc.isExc 2 (log_to_jsonBody data filepath s)

/-- The JSON object `generate_json` writes:
`{serialNumber, outputExecutionResult}`. -/
def traceRecord (data : Data) (status : Nat) : JValue :=
  .obj [("serialNumber", optStr (data.get "SerialNumber")),
        ("outputExecutionResult", .num status)]

/-- Body of `generate_json`: build the traceability record and write it in
`'w'` mode; no directory creation happens here. -/
def generate_jsonBody (data : Data) (filepath : String) (s : St) :
    Except PyExc Unit × St :=
  match fsWrite s.fs filepath (traceRecord data s.executionStatus) with
  | .error e => (.error e, s)
  | .ok fs1 => (.ok (), { s with fs := fs1 })

/-- `generate_json` (status 4 on failure). -/
def generate_json (data : Data) (filepath : String) (s : St) :
    Except PyExc Unit × St :=
  catchWith PyExc.isExc 4 (generate_jsonBody data filepath s)

/-- Body of `manage_data_json`: filename, `os.path.join`, `generate_json`,
return the joined path. -/
def manage_data_jsonBody (data : Data) (filepath : Option String)
    (date : String) (s : St) : Except PyExc String × St :=
  match format_filename data date s with
  | (some filename, s1) =>
    match osPathJoin filepath filename with
    | .error e => (.error e, s1)
    | .ok fullpath =>
      let (_, s2) := generate_json data fullpath s1
      (.ok fullpath, s2)
  | (none, s1) =>
    -- os.path.join(filepath, None) would raise TypeError (dead branch)
    (.error .typeError, s1)

/-- `manage_data_json` (status 3 on failure, returning `None`). -/
def manage_data_json (data : Data) (filepath : Option String)
    (date : String) (s : St) : Except PyExc (Option String) × St :=
  match manage_data_jsonBody data filepath date s with
  | (.ok p, s1) => (.ok (some p), s1)
  | (.error e, s1) =>
    if e.isExc then (.ok none, setStatus 3 s1) else (.error e, s1)

/-! ### Serial-number validation and argument parsing -/

/-- An ASCII-level sufficient validity condition, used only as the
hypothesis of the run-level theorems: when it is `false`, the serial is a
string of ten ASCII digits whose value lies within the range, a subdomain
on which the Unicode subtleties of `isdigit` versus `int()` cannot arise
and validation certainly leaves the status and control flow untouched. -/
def serialFailCond (sn : String) : Bool :=
  !(!sn.isEmpty && sn.toList.all Char.isDigit)
  || sn.length != SERIAL_NUMBER_LENGTH_ONASPORT
  || Nat.blt (intOfString sn) MIN_SERIAL_NUMBER_ONASPORT
  || Nat.blt MAX_SERIAL_NUMBER_ONASPORT (intOfString sn)

/-- `check_serial_number`, with the short-circuit order of the source
disjunction: `isdigit` first, then the length, then the `int()`
comparisons.  `int()` is evaluated only when the first two tests pass, and
on a digit-typed string containing a non-decimal digit it raises
`ValueError`, which escapes this function (there is no `try` here) with
the status untouched.  On every non-raising path the string itself is
returned. -/
def check_serial_number (sn : String) (s : St) : Except PyExc String × St :=
  if !pyIsdigit sn then (.ok sn, setStatus 5 s)
  else if sn.length != SERIAL_NUMBER_LENGTH_ONASPORT then
    (.ok sn, setStatus 5 s)
  else
    match pyInt sn with
    | .error e => (.error e, s)
    | .ok v =>
      if Nat.blt v MIN_SERIAL_NUMBER_ONASPORT
         || Nat.blt MAX_SERIAL_NUMBER_ONASPORT v then
        (.ok sn, setStatus 5 s)
      else (.ok sn, s)

/-- The serials on which `check_serial_number` raises: digit-typed strings
of the right length whose `int()` conversion fails. -/
def serialThrows (sn : String) : Bool :=
  pyIsdigit sn && sn.length == SERIAL_NUMBER_LENGTH_ONASPORT
    && !(pyInt sn).isOk

/-- The parsed namespace: all required arguments plus the optional
`OutputDirectory` (`None` when `-output` is omitted). -/
structure PNamespace where
  Environment : String
  Username : String
  Password : String
  SerialNumber : String
  Organization : String
  RegistrationCode : String
  Description : String
  Version : String
  OutputDirectory : Option String

/-- A command line, one field per flag (`none` = flag absent). -/
structure CmdLine where
  env : Option String
  user : Option String
  password : Option String
  sn : Option String
  org : Option String
  rc : Option String
  description : Option String
  version : Option String
  output : Option String

/-- Invalid `-env` choice present on the command line. -/
def envChoiceBad (cmd : CmdLine) : Bool :=
  match cmd.env with
  | some e => e != "production" && e != "development"
  | none => false

/-- How argparse runs a `type` callback: a `ValueError` or `TypeError`
raised by the callback is caught by argparse and turned into
`parser.error`, i.e. `SystemExit(2)`; any other exception would propagate
unchanged. -/
def argparseConvert (x : Except PyExc String × St) :
    Except PyExc (Option String) × St :=
  match x with
  | (.ok r, s1) => (.ok (some r), s1)
  | (.error e, s1) =>
    if e = .valueError ∨ e = .typeError then (.error (.systemExit 2), s1)
    else (.error e, s1)

/-- `parser.parse_args()`: the `-sn` type callback runs while the argument
is scanned (so status 5 can be recorded even when parsing then aborts, and
a `ValueError` from `int()` becomes `SystemExit(2)`); an invalid `-env`
choice or any missing required flag also makes argparse call
`parser.error`, i.e. raise `SystemExit(2)`. -/
def parse_args (cmd : CmdLine) (s : St) : Except PyExc PNamespace × St :=
  match (match cmd.sn with
         | some v => argparseConvert (check_serial_number v s)
         | none => (.ok none, s)) with
  | (.error e, s1) => (.error e, s1)
  | (.ok snv, s1) =>
    if envChoiceBad cmd then (.error (.systemExit 2), s1)
    else
      match cmd.env, cmd.user, cmd.password, snv, cmd.org, cmd.rc,
            cmd.description, cmd.version with
      | some env, some user, some pw, some sn, some org, some rc, some de,
        some ver =>
        (.ok ⟨env, user, pw, sn, org, rc, de, ver, cmd.output⟩, s1)
      | _, _, _, _, _, _, _, _ => (.error (.systemExit 2), s1)

/-- `parse_arguments` (status 6 on an `Exception`; `SystemExit` from
argparse is not `Exception`-derived and passes through). -/
def parse_arguments (cmd : CmdLine) (s : St) :
    Except PyExc (Option PNamespace) × St :=
  match parse_args cmd s with
  | (.ok ns, s1) => (.ok (some ns), s1)
  | (.error e, s1) =>
    if e.isExc then (.ok none, setStatus 6 s1) else (.error e, s1)

/-- `vars(args)` as a dictionary, in the argument order of the parser. -/
def parsedDict (ns : PNamespace) : Data :=
  [("Environment", some ns.Environment), ("Username", some ns.Username),
   ("Password", some ns.Password), ("SerialNumber", some ns.SerialNumber),
   ("Organization", some ns.Organization),
   ("RegistrationCode", some ns.RegistrationCode),
   ("Description", some ns.Description), ("Version", some ns.Version),
   ("OutputDirectory", ns.OutputDirectory)]

/-- `parsed_object_to_dict`: `vars(None)` raises `TypeError`, caught by the
own `except Exception` of the function (status 7). -/
def parsed_object_to_dict (ns : Option PNamespace) (s : St) :
    Except PyExc (Option Data) × St :=
  match ns with
  | some n => (.ok (some (parsedDict n)), s)
  | none => (.ok none, setStatus 7 s)

/-! ### Generic API helpers -/

/-- `get_api_call`: performs the GET (recording the event), calls
`raise_for_status`, and converts any failure into status 8 and a `None`
result (its `except Exception` catches everything that can arise here). -/
def get_api_call (resp : NetResult) (ev : NetEvent) (s : St) :
    Option HttpResponse × St :=
  let s1 := pushEvent ev s
  match resp with
  | .netError => (none, setStatus 8 s1)
  | .ok r =>
    match raiseForStatus r with
    | .error _ => (none, setStatus 8 s1)
    | .ok _ => (some r, s1)

/-- `post_api_call`: as `get_api_call` but with status 9. -/
def post_api_call (resp : NetResult) (ev : NetEvent) (s : St) :
    Option HttpResponse × St :=
  let s1 := pushEvent ev s
  match resp with
  | .netError => (none, setStatus 9 s1)
  | .ok r =>
    match raiseForStatus r with
    | .error _ => (none, setStatus 9 s1)
    | .ok _ => (some r, s1)

/-! ### The authenticated call chain

The source functions call each other in a nested fashion
(`define_apis → signin → get_organizations → registration_id →
template_id → add_device`), each wrapped in its own `try/except`; they are
defined here innermost-first because Lean needs definitions before use.
`stepE` sequences one Python expression that may raise: on an exception
the enclosing function body is abandoned with the state at the raise
point. -/

def stepE {α : Type} (x : Except PyExc α) (s : St)
    (k : α → Except PyExc Unit × St) : Except PyExc Unit × St :=
  match x with
  | .error e => (.error e, s)
  | .ok a => k a

/-- A Python value used as a dictionary key: the organization name from the
arguments, or `None` when absent. -/
def pyKeyOf : Option String → JValue
  | some v => .str v
  | none => .null

/-- Body of `add_device`: build and POST the registration-code payload,
extract the created `_id`, sleep one second, build and POST the device
payload.  Both payloads are recorded in the state, as the source stores
them in globals. -/
def add_deviceBody (w : World) (data : Data) (s : St) :
    Except PyExc Unit × St :=
  match s.templateIdRegistrationCode with
  | none => (.error .nameError, s)
  | some trc =>
    let ownerId : JValue :=
      (dicGet s.organizationsDic (pyKeyOf (data.get "Organization"))).getD .null
    let dataRC : JValue := .obj
      [("_ownerOrganization", .obj [("id", ownerId)]),
       ("_code", optStr (data.get "RegistrationCode")),
       ("_templateId", trc)]
    let pr := post_api_call w.postRcResp .postRegistrationCode
      { s with dataRegistrationCode := some dataRC }
    stepE (pyContent pr.1) pr.2 fun body1 =>
    stepE (jsonLoads body1) pr.2 fun rj =>
    stepE (jGet rj "_id") pr.2 fun rcId =>
      let s3 := pushEvent (.sleep 1) pr.2
      match s3.onasportDeviceTemplateId with
      | none => (.error .nameError, s3)
      | some devT =>
        let dataDev : JValue := .obj
          [("_ownerOrganization", .obj [("id", ownerId)]),
           ("_registrationCode", .obj [("id", rcId)]),
           ("_id", optStr (data.get "SerialNumber")),
           ("_description", optStr (data.get "Description")),
           ("device_version", optStr (data.get "Version")),
           ("_templateId", devT)]
        (.ok (), (post_api_call w.postDevResp .postDevice
          { s3 with dataDevice := some dataDev }).2)

/-- `add_device` (status 15, but only for `RequestException`; the
`AttributeError`/`KeyError` failures of its body pass through). -/
def add_device (w : World) (data : Data) (s : St) : Except PyExc Unit × St :=
  catchWith PyExc.isReqExc 15 (add_deviceBody w data s)

/-- Python iteration `for x in v`: lists yield their elements, dicts their
keys, strings their characters; other values raise `TypeError`. -/
def pyIter : JValue → Except PyExc (List JValue)
  | .arr xs => .ok xs
  | .obj fields => .ok (fields.map (fun kv => JValue.str kv.1))
  | .str st => .ok (st.toList.map (fun c => JValue.str (String.mk [c])))
  | _ => .error .typeError

/-- The `for organization in ...` loop of `template_id`: assignment
`ORGANIZATIONS_DIC[org["_name"]] = org["_id"]` evaluates the right-hand
side first; an unhashable key raises `TypeError`.  The partially built
dictionary survives a failure, as the global does. -/
def buildOrgDic (orgs : List JValue) (dic : List (JValue × JValue)) :
    Except PyExc Unit × List (JValue × JValue) :=
  match orgs with
  | [] => (.ok (), dic)
  | org :: rest =>
    match jGet org "_id" with
    | .error e => (.error e, dic)
    | .ok idv =>
      match jGet org "_name" with
      | .error e => (.error e, dic)
      | .ok nm =>
        if hashable nm then buildOrgDic rest (dicInsert dic nm idv)
        else (.error .typeError, dic)

/-- Body of `template_id`: fetch the device template, extract
`template.id`, build `ORGANIZATIONS_DIC` from the organization-list
response stored by `get_organizations`, and call `add_device(data)`. -/
def template_idBody (w : World) (s : St) : Except PyExc Unit × St :=
  let gr := get_api_call w.templDevResp .getTemplateDevice s
  stepE (pyContent gr.1) gr.2 fun body1 =>
  stepE (jsonLoads body1) gr.2 fun rj =>
  stepE (jGet rj "template") gr.2 fun tmpl =>
  stepE (jGet tmpl "id") gr.2 fun devT =>
    let s2 := { gr.2 with onasportDeviceTemplateId := some devT }
    match s2.responseJsonListOrganizations with
    | none => (.error .nameError, s2)
    | some rjOrgs =>
      stepE (jGet rjOrgs "data") s2 fun dataField =>
      stepE (pyIter dataField) s2 fun orgs =>
        match buildOrgDic orgs s2.organizationsDic with
        | (.error e, dic) => (.error e, { s2 with organizationsDic := dic })
        | (.ok _, dic) =>
          let s3 := { s2 with organizationsDic := dic }
          match s3.data with
          | none => (.error .nameError, s3)
          | some d => add_device w d s3

/-- `template_id` (status 14, `RequestException` only). -/
def template_id (w : World) (s : St) : Except PyExc Unit × St :=
  catchWith PyExc.isReqExc 14 (template_idBody w s)

/-- Body of `registration_id`: fetch the registration-code template list
and take `data[0].id`, then continue with `template_id`. -/
def registration_idBody (w : World) (s : St) : Except PyExc Unit × St :=
  let gr := get_api_call w.templRcResp .getTemplateRegistrationCode s
  stepE (pyContent gr.1) gr.2 fun body1 =>
  stepE (jsonLoads body1) gr.2 fun rj =>
  stepE (jGet rj "data") gr.2 fun dataField =>
  stepE (jIndex dataField 0) gr.2 fun first =>
  stepE (jGet first "id") gr.2 fun trc =>
    template_id w { gr.2 with templateIdRegistrationCode := some trc }

/-- `registration_id` (status 13, `RequestException` only). -/
def registration_id (w : World) (s : St) : Except PyExc Unit × St :=
  catchWith PyExc.isReqExc 13 (registration_idBody w s)

/-- Body of `get_organizations`: fetch the organization list, decode it
into the global, continue with `registration_id`. -/
def get_organizationsBody (w : World) (s : St) : Except PyExc Unit × St :=
  match s.headersApis with
  | none => (.error .nameError, s)
  | some _ =>
    let gr := get_api_call w.orgsResp .getOrganizations s
    stepE (pyContent gr.1) gr.2 fun body1 =>
    stepE (jsonLoads body1) gr.2 fun rj =>
      registration_id w { gr.2 with responseJsonListOrganizations := some rj }

/-- `get_organizations` (status 12, `RequestException` only). -/
def get_organizations (w : World) (s : St) : Except PyExc Unit × St :=
  catchWith PyExc.isReqExc 12 (get_organizationsBody w s)

/-- Extraction of the bearer token from the login response:
`response.json()["accessJwt"]["token"]`. -/
def tokenExtract (r : HttpResponse) : Except PyExc JValue :=
  match responseJson r with
  | .error e => .error e
  | .ok rj =>
    match jGet rj "accessJwt" with
    | .error e => .error e
    | .ok aj => jGet aj "token"

/-- Body of `signin`: POST the credentials, `raise_for_status`, extract the
token, store the authorization header, continue with
`get_organizations`. -/
def signinBody (w : World) (s : St) : Except PyExc Unit × St :=
  let s1 := pushEvent .postLogin s
  match w.loginResp with
  | .netError => (.error .connectionError, s1)
  | .ok r =>
    stepE (raiseForStatus r) s1 fun _ =>
    stepE (tokenExtract r) s1 fun tok =>
      get_organizations w { s1 with headersApis := some tok }

/-- `signin` (status 11, `RequestException` only: non-2xx, network error
and `requests` JSON-decode failures are caught here, but a `KeyError` from
a body missing the token field is not). -/
def signin (w : World) (s : St) : Except PyExc Unit × St :=
  catchWith PyExc.isReqExc 11 (signinBody w s)

/-- The base-URL selection of `define_apis`: `none` models the case where
neither branch of the `if/elif` assigns `base_url`, so that its first use
raises `NameError`. -/
def baseUrlFor : Option String → Option String
  | some e =>
    if e = "development" then some URL_DEV
    else if e = "production" then some URL_PROD
    else none
  | none => none

/-- The assignment block of `define_apis`: the login headers and payload
and the six endpoint URLs. -/
def defineApiState (base_url : String) (username password : Option String)
    (s : St) : St :=
  { s with
    headersLogin := some "application/json"
    payload := some (username, password)
    apiLogin := some (base_url ++ "/ums/v2/users/login")
    apiPostRegistrationCode :=
      some (base_url ++ "/organization/v1/registration-codes")
    apiGetOrganizations := some (base_url ++
      "/organization/v1/organizations?searchRequest=%7B%22limit%22%3A30%2C%22filter%22%3A%7B%7D%2C%22freeTextSearch%22%3A%22%22%7D")
    apiGetTemplateRegistrationCode := some (base_url ++
      "/settings/v1/templates/minimized?searchRequest=%7B%22filter%22%3A%7B%22entityTypeName%22%3A%7B%22in%22%3A%5B%22registration-code%22%5D%7D%7D%2C%22limit%22%3A1000%7D")
    apiGetTemplateOnasportDevice := some (base_url ++
      "/settings/v1/portal-builder/MANUFACTURER_PORTAL/views-full-info/TEMPLATE_EXPAND?entityTypeName=device&templateId=0acb3d5b-c70b-4101-b8f7-be17c452fbc5")
    apiPostOnasportDevice := some (base_url ++ "/device/v2/devices") }

/-- Body of `define_apis`: select the base URL from the environment (any
other value leaves `base_url` unbound, so the first use raises
`NameError`), store the endpoint URLs and login payload, and call
`signin`. -/
def define_apisBody (w : World)
    (username password environment : Option String) (s : St) :
    Except PyExc Unit × St :=
  match baseUrlFor environment with
  | none => (.error .nameError, s)
  | some base_url => signin w (defineApiState base_url username password s)

/-- `define_apis` (status 10, `except Exception`: this is the outermost
catch of the whole network chain, so every `Exception`-derived error that
escapes the inner, `RequestException`-only handlers lands here). -/
def define_apis (w : World)
    (username password environment : Option String) (s : St) :
    Except PyExc Unit × St :=
  catchWith PyExc.isExc 10 (define_apisBody w username password environment s)

/-! ### Top level -/

/-- The `if EXECUTION_STATUS == 0: define_apis(...)` step of `main`: the
upload is attempted only when argument collection left the status at 0. -/
def mainUpload (w : World) (d : Data) (s : St) : Except PyExc Unit × St :=
  if s.executionStatus = 0 then
    define_apis w (d.get "Username") (d.get "Password")
      (d.get "Environment") s
  else (.ok (), s)

/-- Body of `main`, additionally reporting whether the local
`output_directory` was bound when an exception escaped (`none` = unbound),
because the `except` block of `main` reads it. -/
def mainBody (w : World) (cmd : CmdLine) (s : St) :
    Except PyExc (Option String) × Option (Option String) × St :=
  match parse_arguments cmd s with
  | (.error e, s1) => (.error e, none, s1)
  | (.ok ns, s1) =>
    match parsed_object_to_dict ns s1 with
    | (.error e, s2) => (.error e, none, s2)
    | (.ok dataOpt, s2) =>
      let s3 := { s2 with data := dataOpt }   -- global `data` assignment
      match dataOpt with
      | none =>
        -- output_directory = data.get(OutputDirectory) on None:
        -- AttributeError, with output_directory still unbound
        (.error .attributeError, none, s3)
      | some d =>
        let od := d.get "OutputDirectory"
        match mainUpload w d s3 with
        | (.error e, s4) => (.error e, some od, s4)
        | (.ok _, s4) =>
          match manage_data_json d od w.date s4 with
          | (.error e, s5) => (.error e, some od, s5)
          | (.ok p, s5) => (.ok p, some od, s5)

/-- `main`: its `except Exception` sets status 16 and re-runs
`manage_data_json(data, output_directory)`; on the only path that can
reach it the local `output_directory` is unbound, so that call raises
`NameError`. -/
def pymain (w : World) (cmd : CmdLine) (s : St) :
    Except PyExc (Option String) × St :=
  match mainBody w cmd s with
  | (.ok p, _, s1) => (.ok p, s1)
  | (.error e, od, s1) =>
    if e.isExc then
      let s2 := setStatus 16 s1
      match s2.data, od with
      | some d, some odv => manage_data_json d odv w.date s2
      | _, _ => (.error .nameError, s2)
    else (.error e, s1)

/-- Observable result of one process run. -/
structure ProgResult where
  exitCode : Nat
  stdout : Option String   -- what `print(main())` writes; none if the process died earlier
  status : Nat
  trace : List NetEvent
  fs : FS

/-- Rendering of `print(main())`. -/
def pyStr : Option String → String
  | some v => v
  | none => "None"

/-- The whole process: `print(main())`.  An uncaught `SystemExit c` gives
exit code `c` (argparse uses 2); any other uncaught exception gives the
interpreter traceback exit code 1. -/
def program (w : World) (cmd : CmdLine) : ProgResult :=
  match pymain w cmd (initSt w) with
  | (.ok p, s) => ⟨0, some (pyStr p), s.executionStatus, s.trace, s.fs⟩
  | (.error (.systemExit c), s) => ⟨c, none, s.executionStatus, s.trace, s.fs⟩
  | (.error _, s) => ⟨1, none, s.executionStatus, s.trace, s.fs⟩

/-! ### Infrastructure lemmas: exception classification and frame facts -/

theorem jGet_err {v : JValue} {k : String} {e : PyExc}
    (h : jGet v k = .error e) : e.isExc = true ∧ e.isReqExc = false := by
  unfold jGet at h
  split at h
  · split at h
    · cases h
    · cases h; exact ⟨rfl, rfl⟩
  · cases h; exact ⟨rfl, rfl⟩

theorem responseJson_err {r : HttpResponse} {e : PyExc}
    (h : responseJson r = .error e) : e = .reqJsonError := by
  unfold responseJson at h
  split at h
  · cases h
  · cases h; rfl

theorem tokenExtract_err {r : HttpResponse} {e : PyExc}
    (h : tokenExtract r = .error e) : e.isExc = true := by
  unfold tokenExtract at h
  split at h
  · next heq => cases h; rw [responseJson_err heq]; rfl
  · split at h
    · next heq2 => cases h; exact (jGet_err heq2).1
    · exact (jGet_err h).1

/-- On a well-formed (decodable) body, a token-extraction failure is never
`RequestException`-classed: it escapes `signin`. -/
theorem tokenExtract_err_notReq {r : HttpResponse} {b : JValue} {e : PyExc}
    (hb : r.body = some b) (h : tokenExtract r = .error e) :
    e.isReqExc = false := by
  unfold tokenExtract at h
  split at h
  · next heq => unfold responseJson at heq; rw [hb] at heq; cases heq
  · split at h
    · next heq2 => cases h; exact (jGet_err heq2).2
    · exact (jGet_err h).2

theorem catchWith_err {canCatch : PyExc → Bool} {code : Nat}
    {x : Except PyExc Unit × St} {e : PyExc}
    (h : (catchWith canCatch code x).1 = .error e) :
    x.1 = .error e ∧ canCatch e = false := by
  unfold catchWith at h
  split at h
  · simp at h
  · next e1 s1 =>
    split at h
    · simp at h
    · next hc =>
      simp at h
      subst h
      exact ⟨rfl, by simpa using hc⟩

/-- A `try/except Exception` block never lets an exception escape when its
body can only raise `Exception`-derived errors. -/
theorem catchAll_ok {code : Nat} {x : Except PyExc Unit × St}
    (hb : ∀ e, x.1 = .error e → e.isExc = true) :
    (catchWith PyExc.isExc code x).1 = .ok () := by
  cases hr : (catchWith PyExc.isExc code x).1 with
  | ok a => rfl
  | error e =>
    rcases catchWith_err hr with ⟨h1, h2⟩
    rw [hb e h1] at h2
    cases h2

theorem fsWrite_err {fs : FS} {p : String} {v : JValue} {e : PyExc}
    (h : fsWrite fs p v = .error e) : e = .fileNotFoundError := by
  unfold fsWrite at h
  split at h
  · cases h
  · cases h; rfl

theorem generate_jsonBody_err {d : Data} {fp : String} {s : St} {e : PyExc}
    (h : (generate_jsonBody d fp s).1 = .error e) : e.isExc = true := by
  unfold generate_jsonBody at h
  split at h
  · next heq => simp at h; rw [← h, fsWrite_err heq]; rfl
  · simp at h

theorem generate_json_ok (d : Data) (fp : String) (s : St) :
    (generate_json d fp s).1 = .ok () :=
  catchAll_ok (fun _ h => generate_jsonBody_err h)

theorem getFile_setFile (files : List (String × List JValue)) (p : String)
    (v : List JValue) : getFile (setFile files p v) p = some v := by
  induction files with
  | nil => simp [setFile, getFile]
  | cons kv rest ih =>
    unfold setFile
    split
    · next heq => unfold getFile; simp [heq]
    · next hne => unfold getFile; simp [hne]; exact ih

/-! ### Claims -/

theorem blt_false_iff (a b : Nat) : Nat.blt a b = false ↔ b ≤ a := by
  rw [← Bool.not_eq_true, Nat.blt_eq]
  exact not_lt

/-- A trivial environment used to instantiate theorems on concrete runs. -/
def world0 : World :=
  { loginResp := .netError, orgsResp := .netError, templRcResp := .netError
    templDevResp := .netError, postRcResp := .netError, postDevResp := .netError
    fs0 := { dirs := ["out"], files := [] }, date := "240601" }

def st0 : St := initSt world0

/-- C9: the filename built by `format_filename` is the serial number, an
underscore, the run date as YYMMDD and the `.json` extension; for serial
1234567890 on 2024-06-01 it is exactly `1234567890_240601.json`. -/
theorem C9_format_filename :
    (∀ (d : Data) (date : String) (s : St) (v : String),
      d.lookup "SerialNumber" = some (some v) →
      (format_filename d date s).1 = some (v ++ "_" ++ date ++ ".json")) ∧
    (format_filename [("SerialNumber", some "1234567890")]
        (strftimeYYMMDD 2024 6 1) st0).1 = some "1234567890_240601.json" := by
  constructor
  · intro d date s v hv
    simp [format_filename, Data.getD, hv, fstr]
  · rfl

/-- C9 witness: the general shape instantiated at a concrete dictionary. -/
theorem C9_witness :
    ([("SerialNumber", some "1234567890")] : Data).lookup "SerialNumber" =
      some (some "1234567890") ∧
    (format_filename [("SerialNumber", some "1234567890")] "999999" st0).1 =
      some ("1234567890" ++ "_" ++ "999999" ++ ".json") :=
  ⟨rfl, C9_format_filename.1 _ _ _ _ rfl⟩

theorem setFile_setFile (files : List (String × List JValue)) (p : String)
    (v1 v2 : List JValue) :
    setFile (setFile files p v1) p v2 = setFile files p v2 := by
  induction files with
  | nil => simp [setFile]
  | cons kv rest ih =>
    rcases kv with ⟨q, wv⟩
    by_cases hq : q = p
    · subst hq
      simp [setFile]
    · simp [setFile, hq, ih]

/-- C6: `generate_json` opens the file in write mode, so whatever the file
held before, after a write it holds exactly the one traceability object,
and writing a second time to the same path still leaves exactly one
object, never a concatenation. -/
theorem C6_overwrite (d : Data) (fp : String) (s : St)
    (hdir : dirname fp = "" ∨ s.fs.dirs.contains (dirname fp) = true) :
    ((generate_json d fp s).2).fs.fileAt fp
        = some [traceRecord d s.executionStatus] ∧
    ((generate_json d fp ((generate_json d fp s).2)).2).fs.fileAt fp
        = some [traceRecord d s.executionStatus] := by
  unfold generate_json catchWith generate_jsonBody fsWrite
  rw [if_pos hdir]
  dsimp only
  constructor
  · exact getFile_setFile ..
  · rw [if_pos (by simpa using hdir)]
    dsimp only
    rw [setFile_setFile]
    exact getFile_setFile ..

def worldNoDir : World := { world0 with fs0 := { dirs := [], files := [] } }

def dC5 : Data := [("SerialNumber", some "1234567890")]

/-- C5 counterexample: with the output directory `missing` absent from the
file system, `generate_json` does not create it: the open fails, status
becomes 4, and neither a directory nor a file is created — refuting the
claim that the writer creates missing parent directories before
writing. -/
theorem C5_counterexample :
    dirname "missing/1234567890_240601.json" = "missing" ∧
    (generate_json dC5 "missing/1234567890_240601.json"
      (initSt worldNoDir)).2.fs.files = [] ∧
    (generate_json dC5 "missing/1234567890_240601.json"
      (initSt worldNoDir)).2.fs.dirs = [] ∧
    (generate_json dC5 "missing/1234567890_240601.json"
      (initSt worldNoDir)).2.executionStatus = 4 :=
  ⟨rfl, rfl, rfl, rfl⟩

/-- C5 (amended): the writer used on the final path, `generate_json`, does
not create parent directories: when the parent of the target path does not
exist the write fails with status 4 and the file system is unchanged.
Directory creation exists only in the append-mode helper `log_to_json`,
which the main flow never calls. -/
theorem C5_amended :
    (∀ (d : Data) (fp : String) (s : St),
      dirname fp ≠ "" → s.fs.dirs.contains (dirname fp) = false →
      (generate_json d fp s).2.fs = s.fs ∧
      (generate_json d fp s).2.executionStatus = 4) ∧
    (∀ (d : Data) (fp : String) (s : St),
      dirname fp ≠ "" →
      ((log_to_json d fp s).2).fs.dirs.contains (dirname fp) = true ∧
      ((log_to_json d fp s).2).fs.fileAt fp =
        some (((getFile s.fs.files fp).getD []) ++
          [.obj (d.map (fun kv => (kv.1, optStr kv.2)))])) := by
  constructor
  · intro d fp s h1 h2
    unfold generate_json catchWith generate_jsonBody fsWrite
    rw [if_neg (by simp only [not_or]; exact ⟨h1, by simpa using h2⟩)]
    exact ⟨rfl, rfl⟩
  · intro d fp s h1
    unfold log_to_json catchWith log_to_jsonBody
    rw [if_neg h1]
    dsimp only
    refine ⟨?_, getFile_setFile ..⟩
    by_cases hm : dirname fp ∈ s.fs.dirs
    · simp [hm, List.elem_iff]
    · simp [hm, List.elem_iff]

theorem post_api_call_trace {resp : NetResult} {ev : NetEvent} {s : St} :
    ((post_api_call resp ev s).2).trace = s.trace ++ [ev] := by
  unfold post_api_call
  cases resp with
  | netError => rfl
  | ok r => cases h : raiseForStatus r <;> simp [h, pushEvent, setStatus]

theorem post_api_call_dd {resp : NetResult} {ev : NetEvent} {s : St} :
    ((post_api_call resp ev s).2).dataDevice = s.dataDevice := by
  unfold post_api_call
  cases resp with
  | netError => rfl
  | ok r => cases h : raiseForStatus r <;> simp [h, pushEvent, setStatus]

theorem post_api_call_drc {resp : NetResult} {ev : NetEvent} {s : St} :
    ((post_api_call resp ev s).2).dataRegistrationCode
      = s.dataRegistrationCode := by
  unfold post_api_call
  cases resp with
  | netError => rfl
  | ok r => cases h : raiseForStatus r <;> simp [h, pushEvent, setStatus]

theorem post_api_call_failure {resp : NetResult} {ev : NetEvent} {s : St}
    (h : resp = .netError ∨ ∃ r, resp = .ok r ∧ raiseForStatus r = .error .httpError) :
    post_api_call resp ev s = (none, setStatus 9 (pushEvent ev s)) := by
  rcases h with h | ⟨r, h, hr⟩
  · rw [h]; rfl
  · rw [h]; unfold post_api_call; dsimp only; rw [hr]

theorem post_api_call_success {resp : NetResult} {ev : NetEvent} {s : St}
    {r : HttpResponse} (h : resp = .ok r) (hr : raiseForStatus r = .ok ()) :
    post_api_call resp ev s = (some r, pushEvent ev s) := by
  rw [h]; unfold post_api_call; dsimp only; rw [hr]

/-- On a failing registration-code POST, `add_device` records only that
event, keeps the POST-failure status 9 and re-raises `AttributeError`. -/
theorem add_device_Afail (w : World) (d : Data) (s : St) (trc : JValue)
    (htrc : s.templateIdRegistrationCode = some trc)
    (hfail : w.postRcResp = .netError ∨
      ∃ r, w.postRcResp = .ok r ∧ raiseForStatus r = .error .httpError) :
    add_device w d s = (.error .attributeError,
      setStatus 9 (pushEvent .postRegistrationCode
        { s with dataRegistrationCode := some (.obj
            [("_ownerOrganization", .obj [("id",
                (dicGet s.organizationsDic
                  (pyKeyOf (d.get "Organization"))).getD .null)]),
             ("_code", optStr (d.get "RegistrationCode")),
             ("_templateId", trc)]) })) := by
  unfold add_device add_deviceBody
  rw [htrc]
  dsimp only
  rw [post_api_call_failure hfail]
  rfl

/-- On a succeeding registration-code POST whose body holds `_id`,
`add_device` reaches the device POST: the events are the two POSTs with
the one-second sleep in between. -/
theorem add_device_success (w : World) (d : Data) (s : St)
    (trc rcId devT : JValue) (r : HttpResponse) (b : JValue)
    (htrc : s.templateIdRegistrationCode = some trc)
    (hr : w.postRcResp = .ok r) (hraise : raiseForStatus r = .ok ())
    (hb : r.body = some b) (hid : jGet b "_id" = .ok rcId)
    (hdev : s.onasportDeviceTemplateId = some devT) :
    add_device w d s = (.ok (),
      (post_api_call w.postDevResp .postDevice
        { pushEvent (.sleep 1) (pushEvent .postRegistrationCode
            { s with dataRegistrationCode := some (.obj
                [("_ownerOrganization", .obj [("id",
                    (dicGet s.organizationsDic
                      (pyKeyOf (d.get "Organization"))).getD .null)]),
                 ("_code", optStr (d.get "RegistrationCode")),
                 ("_templateId", trc)]) }) with
          dataDevice := some (.obj
            [("_ownerOrganization", .obj [("id",
                (dicGet s.organizationsDic
                  (pyKeyOf (d.get "Organization"))).getD .null)]),
             ("_registrationCode", .obj [("id", rcId)]),
             ("_id", optStr (d.get "SerialNumber")),
             ("_description", optStr (d.get "Description")),
             ("device_version", optStr (d.get "Version")),
             ("_templateId", devT)]) }).2) := by
  unfold add_device add_deviceBody
  rw [htrc]
  dsimp only
  rw [post_api_call_success hr hraise]
  dsimp only [stepE, pyContent]
  rw [hb]
  dsimp only [jsonLoads]
  rw [hid]
  dsimp only [pushEvent]
  rw [show ({ s with dataRegistrationCode := some (.obj
      [("_ownerOrganization", .obj [("id",
          (dicGet s.organizationsDic
            (pyKeyOf (d.get "Organization"))).getD .null)]),
       ("_code", optStr (d.get "RegistrationCode")),
       ("_templateId", trc)]) } : St).onasportDeviceTemplateId
    = some devT from hdev]
  rfl

theorem stepE_proj {α β : Type} (f : St → β) {x : Except PyExc α} {s : St}
    {k : α → Except PyExc Unit × St} {t : β}
    (hs : f s = t) (hk : ∀ a, f ((k a).2) = t) : f ((stepE x s k).2) = t := by
  unfold stepE
  cases x with
  | error e => exact hs
  | ok a => exact hk a

theorem catchWith_drc {canCatch : PyExc → Bool} {code : Nat}
    {x : Except PyExc Unit × St} :
    ((catchWith canCatch code x).2).dataRegistrationCode
      = (x.2).dataRegistrationCode := by
  unfold catchWith
  split
  · rfl
  · split <;> rfl

/-- Whatever the POST outcomes, `add_device` records the registration-code
payload built from the (possibly absent) organization id. -/
theorem add_deviceBody_drc (w : World) (d : Data) (s : St) (trc : JValue)
    (htrc : s.templateIdRegistrationCode = some trc) :
    ((add_deviceBody w d s).2).dataRegistrationCode = some (.obj
      [("_ownerOrganization", .obj [("id",
          (dicGet s.organizationsDic
            (pyKeyOf (d.get "Organization"))).getD .null)]),
       ("_code", optStr (d.get "RegistrationCode")),
       ("_templateId", trc)]) := by
  unfold add_deviceBody
  rw [htrc]
  dsimp only
  refine stepE_proj (fun st => st.dataRegistrationCode) ?_ ?_
  · exact post_api_call_drc
  · intro a
    refine stepE_proj _ ?_ ?_
    · exact post_api_call_drc
    · intro b1
      refine stepE_proj _ ?_ ?_
      · exact post_api_call_drc
      · intro c1
        dsimp only
        split
        · exact post_api_call_drc
        · exact post_api_call_drc.trans post_api_call_drc

/-- C7: when the registration-code POST (Step A) fails, only that POST is
on the wire — the device POST (Step B) is never sent — the status is the
distinct POST-failure code 9 at the boundary of `add_device` (escalating
as an `AttributeError` to the outer handler), and when Step A succeeds the
fixed one-second sleep sits between the two POSTs in the event trace. -/
theorem C7_claim (w : World) (d : Data) (s : St) (trc : JValue)
    (htrc : s.templateIdRegistrationCode = some trc)
    (hnot : NetEvent.postDevice ∉ s.trace) :
    ((w.postRcResp = .netError ∨
        ∃ r, w.postRcResp = .ok r ∧ raiseForStatus r = .error .httpError) →
      ((add_device w d s).2).trace = s.trace ++ [.postRegistrationCode] ∧
      NetEvent.postDevice ∉ ((add_device w d s).2).trace ∧
      ((add_device w d s).2).executionStatus = 9 ∧
      (add_device w d s).1 = .error .attributeError) ∧
    (∀ (r : HttpResponse) (b rcId devT : JValue),
      w.postRcResp = .ok r → raiseForStatus r = .ok () → r.body = some b →
      jGet b "_id" = .ok rcId → s.onasportDeviceTemplateId = some devT →
      ((add_device w d s).2).trace =
        s.trace ++ [.postRegistrationCode, .sleep 1, .postDevice]) := by
  constructor
  · intro hfail
    rw [add_device_Afail w d s trc htrc hfail]
    refine ⟨rfl, ?_, rfl, rfl⟩
    simp [setStatus, pushEvent, hnot]
  · intro r b rcId devT hr hraise hb hid hdev
    rw [add_device_success w d s trc rcId devT r b htrc hr hraise hb hid hdev]
    rw [post_api_call_trace]
    simp [pushEvent]

/-- C8: when the configured organization is not a key of the fetched
organization directory, the registration-code payload is built without any
exception and carries a null owner-organization id, and the same null id
is propagated unchanged into the device-creation payload. -/
theorem C8_claim (w : World) (d : Data) (s : St) (trc : JValue)
    (orgName : String)
    (htrc : s.templateIdRegistrationCode = some trc)
    (horg : d.get "Organization" = some orgName)
    (hmiss : dicGet s.organizationsDic (.str orgName) = none) :
    ((add_device w d s).2).dataRegistrationCode = some (.obj
      [("_ownerOrganization", .obj [("id", JValue.null)]),
       ("_code", optStr (d.get "RegistrationCode")),
       ("_templateId", trc)]) ∧
    (∀ (r : HttpResponse) (b rcId devT : JValue),
      w.postRcResp = .ok r → raiseForStatus r = .ok () → r.body = some b →
      jGet b "_id" = .ok rcId → s.onasportDeviceTemplateId = some devT →
      ((add_device w d s).2).dataDevice = some (.obj
        [("_ownerOrganization", .obj [("id", JValue.null)]),
         ("_registrationCode", .obj [("id", rcId)]),
         ("_id", optStr (d.get "SerialNumber")),
         ("_description", optStr (d.get "Description")),
         ("device_version", optStr (d.get "Version")),
         ("_templateId", devT)])) := by
  have hnull : (dicGet s.organizationsDic
      (pyKeyOf (d.get "Organization"))).getD .null = JValue.null := by
    rw [horg]
    show (dicGet s.organizationsDic (.str orgName)).getD .null = JValue.null
    rw [hmiss]
    rfl
  constructor
  · rw [show ((add_device w d s).2).dataRegistrationCode
        = ((add_deviceBody w d s).2).dataRegistrationCode from catchWith_drc]
    rw [add_deviceBody_drc w d s trc htrc, hnull]
  · intro r b rcId devT hr hraise hb hid hdev
    rw [add_device_success w d s trc rcId devT r b htrc hr hraise hb hid hdev]
    rw [post_api_call_dd]
    rw [show ({ pushEvent (.sleep 1) (pushEvent .postRegistrationCode
        { s with dataRegistrationCode := some (.obj
            [("_ownerOrganization", .obj [("id",
                (dicGet s.organizationsDic
                  (pyKeyOf (d.get "Organization"))).getD .null)]),
             ("_code", optStr (d.get "RegistrationCode")),
             ("_templateId", trc)]) }) with
          dataDevice := some (.obj
            [("_ownerOrganization", .obj [("id",
                (dicGet s.organizationsDic
                  (pyKeyOf (d.get "Organization"))).getD .null)]),
             ("_registrationCode", .obj [("id", rcId)]),
             ("_id", optStr (d.get "SerialNumber")),
             ("_description", optStr (d.get "Description")),
             ("device_version", optStr (d.get "Version")),
             ("_templateId", devT)]) } : St).dataDevice
      = some (.obj
            [("_ownerOrganization", .obj [("id",
                (dicGet s.organizationsDic
                  (pyKeyOf (d.get "Organization"))).getD .null)]),
             ("_registrationCode", .obj [("id", rcId)]),
             ("_id", optStr (d.get "SerialNumber")),
             ("_description", optStr (d.get "Description")),
             ("device_version", optStr (d.get "Version")),
             ("_templateId", devT)]) from rfl]
    rw [hnull]

/-- When the serial does not make `int()` raise, `check_serial_number`
returns the string normally. -/
theorem check_serial_number_no_raise (sn : String) (s : St)
    (hth : serialThrows sn = false) :
    check_serial_number sn s = (.ok sn, (check_serial_number sn s).2) := by
  unfold check_serial_number
  split
  · rfl
  · split
    · rfl
    · next h1 h2 =>
      split
      · next e he =>
        exfalso
        simp at h1 h2
        have hb : serialThrows sn = true := by
          unfold serialThrows
          rw [he]
          simp [Except.isOk, Except.toBool, h1, h2]
        rw [hb] at hth
        cases hth
      · split <;> rfl

/-- With all required flags present, a valid environment choice and a
serial on which `int()` does not raise, argparse returns the populated
namespace (running the serial-number check as the `-sn` type callback on
the way). -/
theorem parse_args_full (env u pw sn org rc de ver : String)
    (out : Option String) (s : St)
    (henv : env = "production" ∨ env = "development")
    (hth : serialThrows sn = false) :
    parse_args ⟨some env, some u, some pw, some sn, some org, some rc,
      some de, some ver, out⟩ s =
      (.ok ⟨env, u, pw, sn, org, rc, de, ver, out⟩,
       (check_serial_number sn s).2) := by
  have hcs := check_serial_number_no_raise sn s hth
  unfold parse_args
  dsimp only
  rw [hcs]
  unfold argparseConvert
  dsimp only
  rw [if_neg (by rcases henv with h | h <;> subst h <;> simp [envChoiceBad])]

theorem parse_arguments_full (env u pw sn org rc de ver : String)
    (out : Option String) (s : St)
    (henv : env = "production" ∨ env = "development")
    (hth : serialThrows sn = false) :
    parse_arguments ⟨some env, some u, some pw, some sn, some org, some rc,
      some de, some ver, out⟩ s =
      (.ok (some ⟨env, u, pw, sn, org, rc, de, ver, out⟩),
       (check_serial_number sn s).2) := by
  unfold parse_arguments
  rw [parse_args_full env u pw sn org rc de ver out s henv hth]

/-- An ASCII digit is a decimal digit of the Unicode table. -/
theorem decimalDigitVal_ascii {c : Char} (h : c.isDigit = true) :
    decimalDigitVal c = some (c.toNat - 48) := by
  have h1 : 48 ≤ c.toNat ∧ c.toNat ≤ 57 := by
    simp [Char.isDigit, Char.le_def] at h
    exact h
  unfold decimalDigitVal ndRangeStarts
  rw [show List.find?
      (fun b => b ≤ c.toNat && c.toNat ≤ b + 9)
      (0x30 :: [0x660, 0x6F0, 0x7C0, 0x966, 0x9E6, 0xA66, 0xAE6, 0xB66,
        0xBE6, 0xC66, 0xCE6, 0xD66, 0xDE6, 0xE50, 0xED0, 0xF20, 0x1040,
        0x1090, 0x17E0, 0x1810, 0x1946, 0x19D0, 0x1A80, 0x1A90, 0x1B50,
        0x1BB0, 0x1C40, 0x1C50, 0xA620, 0xA8D0, 0xA900, 0xA9D0, 0xA9F0,
        0xAA50, 0xABF0, 0xFF10, 0x104A0, 0x10D30, 0x11066, 0x110F0,
        0x11136, 0x111D0, 0x112F0, 0x11450, 0x114D0, 0x11650, 0x116C0,
        0x11730, 0x118E0, 0x11950, 0x11C50, 0x11D50, 0x11DA0, 0x16A60,
        0x16B50, 0x1D7CE, 0x1D7D8, 0x1D7E2, 0x1D7EC, 0x1D7F6, 0x1E140,
        0x1E2F0, 0x1E950, 0x1FBF0]) = some 0x30 by
    rw [List.find?]
    simp only [show ((0x30 ≤ c.toNat && c.toNat ≤ 0x30 + 9) = true) by
      simp; omega]]
  rfl

theorem pyIntAux_ascii (cs : List Char) (acc : Nat)
    (h : cs.all Char.isDigit = true) :
    pyIntAux cs acc =
      .ok (cs.foldl (fun a c => 10 * a + (c.toNat - 48)) acc) := by
  induction cs generalizing acc with
  | nil => rfl
  | cons c cs ih =>
    simp only [List.all_cons, Bool.and_eq_true] at h
    unfold pyIntAux
    rw [decimalDigitVal_ascii h.1]
    exact ih (10 * acc + (c.toNat - 48)) h.2

theorem pyIsdigit_ascii {sn : String} (hne : sn.isEmpty = false)
    (hd : sn.toList.all Char.isDigit = true) : pyIsdigit sn = true := by
  unfold pyIsdigit
  simp only [hne, Bool.not_false, Bool.true_and]
  simp only [List.all_eq_true] at hd ⊢
  intro c hc
  rw [decimalDigitVal_ascii (hd c hc)]
  rfl

theorem pyInt_ascii {sn : String} (hne : sn.isEmpty = false)
    (hd : sn.toList.all Char.isDigit = true) :
    pyInt sn = .ok (intOfString sn) := by
  unfold pyInt intOfString
  rw [if_neg (by simp [hne])]
  rw [pyIntAux_ascii sn.toList 0 hd]
  rfl

theorem serialFail_components {sn : String}
    (h : serialFailCond sn = false) :
    sn.isEmpty = false ∧ sn.toList.all Char.isDigit = true ∧
    sn.length = SERIAL_NUMBER_LENGTH_ONASPORT ∧
    MIN_SERIAL_NUMBER_ONASPORT ≤ intOfString sn ∧
    intOfString sn ≤ MAX_SERIAL_NUMBER_ONASPORT := by
  unfold serialFailCond at h
  simp only [Bool.or_eq_false_iff] at h
  obtain ⟨⟨⟨ha, hb⟩, hc⟩, hd4⟩ := h
  have ha2 : (!sn.isEmpty && sn.toList.all Char.isDigit) = true := by
    simpa using ha
  rw [Bool.and_eq_true] at ha2
  obtain ⟨hne, hall⟩ := ha2
  refine ⟨by simpa using hne, hall, by simpa using hb, ?_, ?_⟩
  · exact (blt_false_iff _ _).1 hc
  · exact (blt_false_iff _ _).1 hd4

theorem check_serial_number_ok (sn : String) (s : St)
    (hsn : serialFailCond sn = false) :
    check_serial_number sn s = (.ok sn, s) := by
  obtain ⟨hne, hd, hl, hmin, hmax⟩ := serialFail_components hsn
  unfold check_serial_number
  rw [if_neg (by simp [pyIsdigit_ascii hne hd]),
      if_neg (by simpa using hl), pyInt_ascii hne hd]
  dsimp only
  rw [if_neg (by simp only [Bool.or_eq_true, Nat.blt_eq, not_or]; omega)]

theorem serialThrows_false_of (sn : String)
    (hsn : serialFailCond sn = false) : serialThrows sn = false := by
  obtain ⟨hne, hd, _, _, _⟩ := serialFail_components hsn
  unfold serialThrows
  rw [pyInt_ascii hne hd]
  simp [Except.isOk, Except.toBool]

/-- `manage_data_json` on a present output directory whose join target
parent exists: the traceability record is written at the joined path. -/
theorem manage_data_json_write (d : Data) (dir fp date : String) (s : St)
    (sn : String)
    (hlk : d.lookup "SerialNumber" = some (some sn))
    (hjoin : osPathJoin (some dir) (sn ++ "_" ++ date ++ ".json") = .ok fp)
    (hdir : dirname fp = "" ∨ s.fs.dirs.contains (dirname fp) = true) :
    manage_data_json d (some dir) date s =
      (.ok (some fp),
       { s with fs := { s.fs with
          files := setFile s.fs.files fp [traceRecord d s.executionStatus] } }) := by
  unfold manage_data_json manage_data_jsonBody format_filename
  dsimp only
  rw [show Data.getD d "SerialNumber" "No_Serial_Number_Available" = some sn by
    unfold Data.getD; rw [hlk]]
  rw [show fstr (some sn) = sn from rfl]
  rw [hjoin]
  dsimp only
  unfold generate_json catchWith generate_jsonBody fsWrite
  rw [if_pos hdir]

/-- A failing login (network error or HTTP 4xx/5xx) is caught inside
`signin`: status 11, only the login call on the wire, and the remaining
chain never runs. -/
theorem define_apis_authfail (w : World) (u pw env : Option String)
    (base : String) (s : St)
    (hbase : baseUrlFor env = some base)
    (hfail : w.loginResp = .netError ∨
      ∃ r, w.loginResp = .ok r ∧ raiseForStatus r = .error .httpError) :
    define_apis w u pw env s = (.ok (),
      setStatus 11 (pushEvent .postLogin (defineApiState base u pw s))) := by
  unfold define_apis define_apisBody
  rw [hbase]
  dsimp only
  unfold signin signinBody
  dsimp only
  rcases hfail with h | ⟨r, h, hr⟩
  · rw [h]
    rfl
  · rw [h]
    dsimp only
    rw [hr]
    rfl

/-- A login whose body is not decodable JSON raises the requests
JSONDecodeError, a RequestException: also caught in `signin`, status 11. -/
theorem define_apis_badjson (w : World) (u pw env : Option String)
    (base : String) (s : St) (r : HttpResponse)
    (hbase : baseUrlFor env = some base)
    (hr : w.loginResp = .ok r) (hraise : raiseForStatus r = .ok ())
    (hbody : r.body = none) :
    define_apis w u pw env s = (.ok (),
      setStatus 11 (pushEvent .postLogin (defineApiState base u pw s))) := by
  unfold define_apis define_apisBody
  rw [hbase]
  dsimp only
  unfold signin signinBody
  dsimp only
  rw [hr]
  dsimp only
  rw [hraise]
  dsimp only [stepE]
  rw [show tokenExtract r = .error .reqJsonError by
    unfold tokenExtract responseJson; rw [hbody]]
  rfl

/-- A decodable login body missing the token field: the `KeyError` (or
`TypeError`) escapes `signin` and is caught only in `define_apis`,
status 10. -/
theorem define_apis_tokenfail (w : World) (u pw env : Option String)
    (base : String) (s : St) (r : HttpResponse) (b : JValue) (e : PyExc)
    (hbase : baseUrlFor env = some base)
    (hr : w.loginResp = .ok r) (hraise : raiseForStatus r = .ok ())
    (hbody : r.body = some b) (htok : tokenExtract r = .error e) :
    define_apis w u pw env s = (.ok (),
      setStatus 10 (pushEvent .postLogin (defineApiState base u pw s))) := by
  have heE : e.isExc = true := tokenExtract_err htok
  have heR : e.isReqExc = false := tokenExtract_err_notReq hbody htok
  unfold define_apis define_apisBody
  rw [hbase]
  dsimp only
  unfold signin signinBody
  dsimp only
  rw [hr]
  dsimp only
  rw [hraise]
  dsimp only [stepE]
  rw [htok]
  simp [catchWith, heR, heE]

def wC1 : World :=
  { loginResp := .ok ⟨302, some (.obj [])⟩, orgsResp := .netError
    templRcResp := .netError, templDevResp := .netError
    postRcResp := .netError, postDevResp := .netError
    fs0 := { dirs := ["out"], files := [] }, date := "240601" }

def cmdFull : CmdLine :=
  ⟨some "production", some "u", some "pw", some "1234567890", some "OrgA",
   some "RC1", some "ONAS", some "2.0.0", some "out"⟩

/-- C1 counterexample: a login answered with HTTP 302 — a non-2xx
response — does not yield the authentication-failure code 11: the
extraction of the token raises `KeyError`, caught only in `define_apis`,
and the traceability file records status 10. (No further network call is
attempted, as the claim says.) -/
theorem C1_counterexample :
    (program wC1 cmdFull).trace = [.postLogin] ∧
    (program wC1 cmdFull).fs.fileAt "out/1234567890_240601.json" =
      some [.obj [("serialNumber", .str "1234567890"),
                  ("outputExecutionResult", .num 10)]] ∧
    ¬ (200 ≤ 302 ∧ 302 < 300) ∧ (10 : Int) ≠ 11 :=
  ⟨rfl, rfl, by decide, by decide⟩

theorem baseUrlFor_cases {env base : String}
    (h : baseUrlFor (some env) = some base) :
    env = "production" ∨ env = "development" := by
  by_cases h1 : env = "development"
  · exact .inr h1
  · by_cases h2 : env = "production"
    · exact .inl h2
    · exfalso
      unfold baseUrlFor at h
      dsimp only at h
      rw [if_neg h1, if_neg h2] at h
      cases h

theorem mainUpload_run (w : World) (d : Data) (s : St)
    (h : s.executionStatus = 0) :
    mainUpload w d s = define_apis w (d.get "Username") (d.get "Password")
      (d.get "Environment") s := by
  unfold mainUpload
  rw [if_pos h]

/-- C1 run lemma, parameterized over the selected base URL. -/
theorem C1_run (w : World) (env u pw sn org rc de ver dir fp base : String)
    (hbase : baseUrlFor (some env) = some base)
    (hsn : serialFailCond sn = false)
    (hfail : w.loginResp = .netError ∨
      ∃ r, w.loginResp = .ok r ∧ raiseForStatus r = .error .httpError)
    (hjoin : osPathJoin (some dir) (sn ++ "_" ++ w.date ++ ".json") = .ok fp)
    (hdir : dirname fp = "" ∨ w.fs0.dirs.contains (dirname fp) = true) :
    (program w ⟨some env, some u, some pw, some sn, some org, some rc,
      some de, some ver, some dir⟩).trace = [.postLogin] ∧
    (program w ⟨some env, some u, some pw, some sn, some org, some rc,
      some de, some ver, some dir⟩).status = 11 ∧
    (program w ⟨some env, some u, some pw, some sn, some org, some rc,
      some de, some ver, some dir⟩).fs.fileAt fp =
      some [.obj [("serialNumber", .str sn),
                  ("outputExecutionResult", .num 11)]] := by
  have hcs : check_serial_number sn (initSt w) = (.ok sn, initSt w) :=
    check_serial_number_ok sn (initSt w) hsn
  unfold program pymain mainBody
  rw [parse_arguments_full env u pw sn org rc de ver (some dir) (initSt w)
    (baseUrlFor_cases hbase) (serialThrows_false_of sn hsn)]
  rw [hcs]
  dsimp only [parsed_object_to_dict]
  rw [mainUpload_run _ _ _ rfl]
  rw [define_apis_authfail w
    ((parsedDict ⟨env, u, pw, sn, org, rc, de, ver, some dir⟩).get "Username")
    ((parsedDict ⟨env, u, pw, sn, org, rc, de, ver, some dir⟩).get "Password")
    ((parsedDict ⟨env, u, pw, sn, org, rc, de, ver, some dir⟩).get "Environment")
    base
    { initSt w with
      data := some (parsedDict ⟨env, u, pw, sn, org, rc, de, ver, some dir⟩) }
    (by exact hbase) hfail]
  dsimp only
  rw [show (parsedDict ⟨env, u, pw, sn, org, rc, de, ver,
    some dir⟩).get "OutputDirectory" = some dir from rfl]
  rw [manage_data_json_write (parsedDict ⟨env, u, pw, sn, org, rc, de, ver,
      some dir⟩) dir fp w.date _ sn rfl hjoin hdir]
  refine ⟨rfl, rfl, ?_⟩
  show FS.fileAt _ fp = _
  unfold FS.fileAt
  rw [getFile_setFile]
  rfl

/-- C1 (amended): for every run whose login request fails with a network
error or an HTTP 4xx/5xx error response, no organization-list, template or
creation call is attempted afterwards — the network trace is exactly the
login call — and the traceability file written at the joined output path
contains the supplied serial number together with the
authentication-failure status code 11. -/
theorem C1_amended (w : World) (env u pw sn org rc de ver dir fp : String)
    (henv : env = "production" ∨ env = "development")
    (hsn : serialFailCond sn = false)
    (hfail : w.loginResp = .netError ∨
      ∃ r, w.loginResp = .ok r ∧ raiseForStatus r = .error .httpError)
    (hjoin : osPathJoin (some dir) (sn ++ "_" ++ w.date ++ ".json") = .ok fp)
    (hdir : dirname fp = "" ∨ w.fs0.dirs.contains (dirname fp) = true) :
    (program w ⟨some env, some u, some pw, some sn, some org, some rc,
      some de, some ver, some dir⟩).trace = [.postLogin] ∧
    (program w ⟨some env, some u, some pw, some sn, some org, some rc,
      some de, some ver, some dir⟩).status = 11 ∧
    (program w ⟨some env, some u, some pw, some sn, some org, some rc,
      some de, some ver, some dir⟩).fs.fileAt fp =
      some [.obj [("serialNumber", .str sn),
                  ("outputExecutionResult", .num 11)]] := by
  rcases henv with h | h <;> subst h
  · exact C1_run w "production" u pw sn org rc de ver dir fp URL_PROD rfl
      hsn hfail hjoin hdir
  · exact C1_run w "development" u pw sn org rc de ver dir fp URL_DEV rfl
      hsn hfail hjoin hdir

def wAuth : World :=
  { loginResp := .ok ⟨401, some (.obj [])⟩, orgsResp := .netError
    templRcResp := .netError, templDevResp := .netError
    postRcResp := .netError, postDevResp := .netError
    fs0 := { dirs := ["out"], files := [] }, date := "240601" }

/-- C1 witness: a 401 login on a concrete world. -/
theorem C1_amended_witness :
    serialFailCond "1234567890" = false ∧
    raiseForStatus ⟨401, some (.obj [])⟩ = .error .httpError ∧
    osPathJoin (some "out") ("1234567890" ++ "_" ++ wAuth.date ++ ".json") =
      .ok "out/1234567890_240601.json" ∧
    ((program wAuth ⟨some "production", some "u", some "pw",
        some "1234567890", some "OrgA", some "RC1", some "ONAS",
        some "2.0.0", some "out"⟩).trace = [.postLogin] ∧
     (program wAuth ⟨some "production", some "u", some "pw",
        some "1234567890", some "OrgA", some "RC1", some "ONAS",
        some "2.0.0", some "out"⟩).status = 11 ∧
     (program wAuth ⟨some "production", some "u", some "pw",
        some "1234567890", some "OrgA", some "RC1", some "ONAS",
        some "2.0.0", some "out"⟩).fs.fileAt "out/1234567890_240601.json" =
      some [.obj [("serialNumber", .str "1234567890"),
                  ("outputExecutionResult", .num 11)]]) :=
  ⟨rfl, rfl, rfl,
   C1_amended wAuth "production" "u" "pw" "1234567890" "OrgA" "RC1" "ONAS"
     "2.0.0" "out" "out/1234567890_240601.json" (Or.inl rfl) rfl
     (Or.inr ⟨⟨401, some (.obj [])⟩, rfl, rfl⟩) rfl (Or.inr rfl)⟩

def wC4 : World :=
  { loginResp := .ok ⟨200, some (.obj [("x", .null)])⟩, orgsResp := .netError
    templRcResp := .netError, templDevResp := .netError
    postRcResp := .netError, postDevResp := .netError
    fs0 := { dirs := ["out"], files := [] }, date := "240601" }

/-- C4 counterexample: a 200 login whose JSON body lacks the token field
sets status 10 (the `define_apis` catch-all code), not the single distinct
authentication-failure code 11 — refuting the claim that every login
failure sets that one code.  No further network call is attempted. -/
theorem C4_counterexample :
    (define_apis wC4 (some "u") (some "pw") (some "production")
      (initSt wC4)).2.executionStatus = 10 ∧
    (define_apis wC4 (some "u") (some "pw") (some "production")
      (initSt wC4)).2.trace = [.postLogin] ∧
    (10 : Nat) ≠ 11 :=
  ⟨rfl, rfl, by decide⟩

/-- C4 (amended): login failures that are RequestException-classed — a
network error, an HTTP 4xx/5xx response, or a body that is not decodable
JSON — are caught inside `signin` and set the authentication-failure code
11; a decodable body missing the token field raises `KeyError`, which
escapes `signin` and is caught in `define_apis` with code 10.  In every
case no network call beyond the login is attempted. -/
theorem C4_amended (w : World) (u pw env : Option String) (base : String)
    (s : St) (hbase : baseUrlFor env = some base) :
    ((w.loginResp = .netError ∨
        (∃ r, w.loginResp = .ok r ∧ raiseForStatus r = .error .httpError) ∨
        (∃ r, w.loginResp = .ok r ∧ raiseForStatus r = .ok () ∧
          r.body = none)) →
      (define_apis w u pw env s).2.executionStatus = 11 ∧
      (define_apis w u pw env s).2.trace = s.trace ++ [.postLogin] ∧
      (define_apis w u pw env s).1 = .ok ()) ∧
    (∀ (r : HttpResponse) (b : JValue) (e : PyExc),
      w.loginResp = .ok r → raiseForStatus r = .ok () → r.body = some b →
      tokenExtract r = .error e →
      (define_apis w u pw env s).2.executionStatus = 10 ∧
      (define_apis w u pw env s).2.trace = s.trace ++ [.postLogin] ∧
      (define_apis w u pw env s).1 = .ok ()) := by
  constructor
  · intro hf
    rcases hf with h | h | ⟨r, hr, hraise, hbody⟩
    · rw [define_apis_authfail w u pw env base s hbase (Or.inl h)]
      exact ⟨rfl, rfl, rfl⟩
    · rw [define_apis_authfail w u pw env base s hbase (Or.inr h)]
      exact ⟨rfl, rfl, rfl⟩
    · rw [define_apis_badjson w u pw env base s r hbase hr hraise hbody]
      exact ⟨rfl, rfl, rfl⟩
  · intro r b e hr hraise hbody htok
    rw [define_apis_tokenfail w u pw env base s r b e hbase hr hraise hbody
      htok]
    exact ⟨rfl, rfl, rfl⟩

/-- C4 witness: both branches on concrete worlds. -/
theorem C4_amended_witness :
    baseUrlFor (some "production") = some URL_PROD ∧
    ((define_apis wAuth (some "u") (some "pw") (some "production")
        (initSt wAuth)).2.executionStatus = 11 ∧
     (define_apis wAuth (some "u") (some "pw") (some "production")
        (initSt wAuth)).2.trace = (initSt wAuth).trace ++ [.postLogin] ∧
     (define_apis wAuth (some "u") (some "pw") (some "production")
        (initSt wAuth)).1 = .ok ()) ∧
    ((define_apis wC4 (some "u") (some "pw") (some "production")
        (initSt wC4)).2.executionStatus = 10 ∧
     (define_apis wC4 (some "u") (some "pw") (some "production")
        (initSt wC4)).2.trace = (initSt wC4).trace ++ [.postLogin] ∧
     (define_apis wC4 (some "u") (some "pw") (some "production")
        (initSt wC4)).1 = .ok ()) :=
  ⟨rfl,
   (C4_amended wAuth (some "u") (some "pw") (some "production") URL_PROD
      (initSt wAuth) rfl).1
     (Or.inr (Or.inl ⟨⟨401, some (.obj [])⟩, rfl, rfl⟩)),
   (C4_amended wC4 (some "u") (some "pw") (some "production") URL_PROD
      (initSt wC4) rfl).2
     ⟨200, some (.obj [("x", .null)])⟩ (.obj [("x", .null)]) .keyError
     rfl rfl rfl rfl⟩

/-- C5 witness -/
theorem C5_amended_witness :
    (dirname "missing/f.json" ≠ "" ∧
     (initSt worldNoDir).fs.dirs.contains (dirname "missing/f.json") = false ∧
     ((generate_json dC5 "missing/f.json" (initSt worldNoDir)).2.fs =
        (initSt worldNoDir).fs ∧
      (generate_json dC5 "missing/f.json"
        (initSt worldNoDir)).2.executionStatus = 4)) ∧
    (((log_to_json dC5 "missing/f.json" (initSt worldNoDir)).2).fs.dirs.contains
        (dirname "missing/f.json") = true ∧
     ((log_to_json dC5 "missing/f.json" (initSt worldNoDir)).2).fs.fileAt
        "missing/f.json" =
      some (((getFile (initSt worldNoDir).fs.files "missing/f.json").getD [])
        ++ [.obj (dC5.map (fun kv => (kv.1, optStr kv.2)))])) :=
  ⟨⟨by decide, rfl,
    C5_amended.1 dC5 "missing/f.json" (initSt worldNoDir) (by decide) rfl⟩,
   C5_amended.2 dC5 "missing/f.json" (initSt worldNoDir) (by decide)⟩

/-- C6 witness: the double-write instantiated at a concrete path. -/
theorem C6_witness :
    (dirname "out/1234567890_240601.json" = "" ∨
     st0.fs.dirs.contains (dirname "out/1234567890_240601.json") = true) ∧
    (((generate_json dC5 "out/1234567890_240601.json" st0).2).fs.fileAt
        "out/1234567890_240601.json"
       = some [traceRecord dC5 st0.executionStatus] ∧
     ((generate_json dC5 "out/1234567890_240601.json"
        ((generate_json dC5 "out/1234567890_240601.json" st0).2)).2).fs.fileAt
        "out/1234567890_240601.json"
       = some [traceRecord dC5 st0.executionStatus]) :=
  ⟨Or.inr rfl,
   C6_overwrite dC5 "out/1234567890_240601.json" st0 (Or.inr rfl)⟩

def dFull : Data :=
  [("Environment", some "production"), ("Username", some "u"),
   ("Password", some "pw"), ("SerialNumber", some "1234567890"),
   ("Organization", some "OrgB"), ("RegistrationCode", some "RC1"),
   ("Description", some "ONAS"), ("Version", some "2.0.0"),
   ("OutputDirectory", some "out")]

def stC7 : St :=
  { initSt world0 with
    templateIdRegistrationCode := some (.str "TRC")
    onasportDeviceTemplateId := some (.str "TDEV")
    organizationsDic := [(.str "OrgA", .str "ID-A")] }

def wC7a : World := { world0 with postRcResp := .ok ⟨500, some (.obj [])⟩ }

def rC7 : HttpResponse := ⟨201, some (.obj [("_id", .str "RCID")])⟩

def wC7b : World := { world0 with postRcResp := .ok rC7 }

/-- C7 witness: both branches instantiated on concrete worlds. -/
theorem C7_witness :
    (((add_device wC7a dFull stC7).2).trace =
        stC7.trace ++ [.postRegistrationCode] ∧
      NetEvent.postDevice ∉ ((add_device wC7a dFull stC7).2).trace ∧
      ((add_device wC7a dFull stC7).2).executionStatus = 9 ∧
      (add_device wC7a dFull stC7).1 = .error .attributeError) ∧
    ((add_device wC7b dFull stC7).2).trace =
      stC7.trace ++ [.postRegistrationCode, .sleep 1, .postDevice] :=
  ⟨(C7_claim wC7a dFull stC7 (.str "TRC") rfl (List.not_mem_nil _)).1
      (Or.inr ⟨⟨500, some (.obj [])⟩, rfl, rfl⟩),
   (C7_claim wC7b dFull stC7 (.str "TRC") rfl (List.not_mem_nil _)).2
      rC7 (.obj [("_id", .str "RCID")]) (.str "RCID") (.str "TDEV")
      rfl rfl rfl rfl rfl⟩

/-- C8 witness: organization OrgB absent from a directory holding only OrgA. -/
theorem C8_witness :
    dicGet stC7.organizationsDic (.str "OrgB") = none ∧
    (((add_device wC7b dFull stC7).2).dataRegistrationCode = some (.obj
      [("_ownerOrganization", .obj [("id", JValue.null)]),
       ("_code", optStr (dFull.get "RegistrationCode")),
       ("_templateId", .str "TRC")]) ∧
     (∀ (r : HttpResponse) (b rcId devT : JValue),
      wC7b.postRcResp = .ok r → raiseForStatus r = .ok () → r.body = some b →
      jGet b "_id" = .ok rcId → stC7.onasportDeviceTemplateId = some devT →
      ((add_device wC7b dFull stC7).2).dataDevice = some (.obj
        [("_ownerOrganization", .obj [("id", JValue.null)]),
         ("_registrationCode", .obj [("id", rcId)]),
         ("_id", optStr (dFull.get "SerialNumber")),
         ("_description", optStr (dFull.get "Description")),
         ("device_version", optStr (dFull.get "Version")),
         ("_templateId", devT)]))) :=
  ⟨rfl, C8_claim wC7b dFull stC7 (.str "TRC") "OrgB" rfl rfl rfl⟩

